import Mathlib

/-!
Verification of the AT command emulator (src/at_emulator_serial.py).

The emulator is shallowly embedded: commands and transport data are lists of
characters, the mutable object state (`ATEmulator.__init__`) is the structure
`EmuState`, and every serial write is recorded as one element of an output
list. The functions below mirror the Python source line by line:

 - `base_command` embeds the identifier computation of `process_command`
   (line 114): `command.split('=')[0].split('?')[0] + ('?' if '?' in command
   else '')`.
 - `dispatch` embeds the `command_handlers` dictionary lookup with the
   `handle_unknown` default (lines 31-55, 115).
 - `runHandler` embeds the individual `handle_*` methods (lines 138-248),
   including the mid-handler prompt write and raw-byte capture of
   `handle_cmgs` / `read_sms_message` (lines 189-199, 250-260).
 - `process_command` embeds `ATEmulator.process_command` (lines 108-126):
   echo, dispatch, optional response body, the `OK` gated on `quiet`, and the
   `ATCommandError` path that prints `ERROR: <msg>`.
 - `process_buffer` embeds the line framing of `read_loop` (lines 93-106):
   strip the buffer, split on `'\r'`, process each nonempty command stripped.

Transport reads inside `read_sms_message` use `ser.read(in_waiting or 1)`;
the embedding fixes the read granularity at one byte per iteration, which is
the guaranteed-available refinement of the nondeterministic chunking.
-/

/-- Python strings are modelled as lists of characters. -/
abbrev Str := List Char

/-- Python `sep in s` for a single-character `sep`. -/
def hasChar (sep : Char) (s : Str) : Bool := s.any (fun c => c == sep)

/-- Python `s.split(sep)[0]`: the text before the first occurrence of `sep`
(the whole string when `sep` is absent). -/
def pySplitHead (sep : Char) (s : Str) : Str := s.takeWhile (fun c => c != sep)

/-- The text after the first occurrence of `sep` (empty when absent). -/
def pyAfter (sep : Char) (s : Str) : Str := (s.dropWhile (fun c => c != sep)).drop 1

/-- Python `s.split(sep)[1]`: the text between the first and second
occurrence of `sep`; meaningful only when `sep` occurs in `s`. -/
def pySplit1 (sep : Char) (s : Str) : Str := pySplitHead sep (pyAfter sep s)

/-- The ASCII whitespace stripped by Python `str.strip()`. -/
def pyIsSpace (c : Char) : Bool :=
  c == ' ' || c == '\t' || c == '\n' || c == '\r' || c == '\x0b' || c == '\x0c'

/-- Python `s.strip()`. -/
def strip (s : Str) : Str :=
  ((s.dropWhile pyIsSpace).reverse.dropWhile pyIsSpace).reverse

/-- Python `s.replace('\x1a', '')` from `read_sms_message`. -/
def removeCtrlZ (s : Str) : Str := s.filter (fun c => c != '\x1a')

/-- Python `s.split(sep)` for a single-character separator: keeps empty
segments, as in `'a\r\rb'.split('\r') == ['a', '', 'b']`. -/
def splitOn (sep : Char) : Str → List Str
  | [] => [[]]
  | c :: rest =>
    match splitOn sep rest with
    | [] => if c = sep then [[], []] else [[c]]
    | s :: ss => if c = sep then [] :: s :: ss else (c :: s) :: ss

/-- `leadsWith needle hay` holds when `needle` is an initial segment of
`hay`. -/
def leadsWith : Str → Str → Bool
  | [], _ => true
  | _ :: _, [] => false
  | a :: as, b :: bs => a == b && leadsWith as bs

/-- Substring test: `needle` occurs contiguously inside `hay`. -/
def containsSub (needle : Str) : Str → Bool
  | [] => needle.isEmpty
  | c :: rest => leadsWith needle (c :: rest) || containsSub needle rest

/-- Decimal digit character. -/
def digitChar (n : Nat) : Char := Char.ofNat (48 + n)

/-- Fuelled decimal rendering helper. -/
def natToStrAux : Nat → Nat → Str
  | 0, _ => []
  | fuel + 1, n =>
    if n < 10 then [digitChar n]
    else natToStrAux fuel (n / 10) ++ [digitChar (n % 10)]

/-- Decimal rendering of a natural number, as Python f-string interpolation
of an `int` produces. -/
def natToStr (n : Nat) : Str := natToStrAux (n + 1) n

/-- Python `int(s)` restricted to the guarded `'0'`/`'1'` payloads the
handlers accept. -/
def pyIntOf01 (s : Str) : Nat := if s = "1".data then 1 else 0

/-- One entry of `simulated_state['sms_storage']`: the dict
`{'status': ..., 'message': ...}` appended by `handle_cmgs` (line 195). -/
structure SmsRecord where
  status : Str
  message : Str
deriving DecidableEq, Repr

/-- The mutable state of an `ATEmulator` object: the flag attributes set in
`__init__` (lines 27-30) together with the `simulated_state` dictionary
(lines 56-69). Transport plumbing (`port`, `baudrate`, `serial_port`,
`running`) is outside the protocol core and is not part of the state. -/
structure EmuState where
  echo : Bool
  verbose : Bool
  quiet : Bool
  sms_mode : Nat
  manufacturer : Str
  model : Str
  revision : Str
  imei : Str
  imsi : Str
  operatorName : Str
  signal_strength : Nat
  registration_status : Nat
  sms_storage : List SmsRecord
  gprs_attached : Nat
  ip_status : Str
deriving DecidableEq, Repr

/-- The state built by `ATEmulator.__init__`. -/
def initState : EmuState where
  echo := true
  verbose := true
  quiet := false
  sms_mode := 1
  manufacturer := "Generic".data
  model := "Modem 1.0".data
  revision := "1.0.0".data
  imei := "123456789012345".data
  imsi := "310150123456789".data
  operatorName := "Mobilis".data
  signal_strength := 15
  registration_status := 1
  sms_storage := []
  gprs_attached := 0
  ip_status := "IP INITIAL".data

/-- `ATEmulator.send_response` (lines 128-134): the exact byte string a
single call writes to the serial port. -/
def frame (st : EmuState) (r : Str) : Str :=
  if st.verbose then '\r' :: '\n' :: r ++ ['\r', '\n'] else r ++ ['\r', '\n']

/-- The identifier computation of `process_command` (line 114). -/
def base_command (command : Str) : Str :=
  pySplitHead '?' (pySplitHead '=' command) ++
    (if hasChar '?' command then ['?'] else [])

/-- One tag per distinct handler method registered in `command_handlers`
(lines 31-55); `cUnknown` stands for `handle_unknown`. -/
inductive Handler where
  | cAT | cATE0 | cATE1 | cATI | cGMI | cGMM | cGMR | cCSQ | cCREG | cCOPS
  | cCMGF | cCMGS | cCMGR | cCMGL | cCMGD | cCUSD | cCGATT
  | cCIPSTATUS | cCIPSTART | cCIPCLOSE | cUnknown
deriving DecidableEq, Repr

/-- The `command_handlers` dictionary lookup with `handle_unknown` as the
default (line 115). -/
def dispatch (bc : Str) : Handler :=
  if bc = "AT".data then .cAT
  else if bc = "ATE0".data then .cATE0
  else if bc = "ATE1".data then .cATE1
  else if bc = "ATI".data then .cATI
  else if bc = "AT+GMI".data then .cGMI
  else if bc = "AT+GMM".data then .cGMM
  else if bc = "AT+GMR".data then .cGMR
  else if bc = "AT+CGMI".data then .cGMI
  else if bc = "AT+CGMM".data then .cGMM
  else if bc = "AT+CGMR".data then .cGMR
  else if bc = "AT+CSQ".data then .cCSQ
  else if bc = "AT+CREG?".data then .cCREG
  else if bc = "AT+COPS?".data then .cCOPS
  else if bc = "AT+CMGF".data then .cCMGF
  else if bc = "AT+CMGS".data then .cCMGS
  else if bc = "AT+CMGR".data then .cCMGR
  else if bc = "AT+CMGL".data then .cCMGL
  else if bc = "AT+CMGD".data then .cCMGD
  else if bc = "AT+CUSD".data then .cCUSD
  else if bc = "AT+CGATT".data then .cCGATT
  else if bc = "AT+CIPSTATUS".data then .cCIPSTATUS
  else if bc = "AT+CIPSTART".data then .cCIPSTART
  else if bc = "AT+CIPCLOSE".data then .cCIPCLOSE
  else .cUnknown

/-- The loop body of `read_sms_message` (lines 250-260) with one byte
consumed per iteration: accumulate characters until the accumulated message
contains `'\x1a'`, then return the message with `'\x1a'` removed and
stripped, together with the unconsumed transport input. `none` means the
input ran out before a terminator arrived, i.e. the Python loop keeps
blocking. -/
def readSmsGo : Str → Str → Option (Str × Str)
  | _, [] => none
  | acc, c :: rest =>
    if hasChar '\x1a' (acc ++ [c]) then
      some (strip (removeCtrlZ (acc ++ [c])), rest)
    else readSmsGo (acc ++ [c]) rest

/-- `ATEmulator.read_sms_message` (lines 250-260). -/
def read_sms_message (input : Str) : Option (Str × Str) := readSmsGo [] input

/-- How a handler invocation ends: a Python return value (`None` or a
string), a raised `ATCommandError`, or blocking forever inside
`read_sms_message` because no terminator byte arrives. -/
inductive HRes where
  | ret (resp : Option Str)
  | raiseAT (msg : Str)
  | blocked
deriving DecidableEq, Repr

/-- Result of running one handler: the state after it, the responses it
wrote itself mid-call (only `handle_cmgs` writes the `"> "` prompt), how it
ended, and the transport input it left unconsumed. -/
structure HandlerOut where
  st : EmuState
  mid : List Str
  res : HRes
  rest : Str
deriving DecidableEq, Repr

/-- The individual `handle_*` methods (lines 138-248). -/
def runHandler (h : Handler) (st : EmuState) (command : Str) (input : Str) : HandlerOut :=
  match h with
  | .cAT => ⟨st, [], .ret none, input⟩
  | .cATE0 => ⟨{ st with echo := false }, [], .ret none, input⟩
  | .cATE1 => ⟨{ st with echo := true }, [], .ret none, input⟩
  | .cATI => ⟨st, [], .ret (some (st.manufacturer ++ " ".data ++ st.model)), input⟩
  | .cGMI => ⟨st, [], .ret (some st.manufacturer), input⟩
  | .cGMM => ⟨st, [], .ret (some st.model), input⟩
  | .cGMR => ⟨st, [], .ret (some st.revision), input⟩
  | .cCSQ => ⟨st, [], .ret (some ("+CSQ: ".data ++ natToStr st.signal_strength ++ ",99".data)), input⟩
  | .cCREG => ⟨st, [], .ret (some ("+CREG: 0,".data ++ natToStr st.registration_status)), input⟩
  | .cCOPS => ⟨st, [], .ret (some ("+COPS: 0,0,\"".data ++ st.operatorName ++ "\",6".data)), input⟩
  | .cCMGF =>
    if hasChar '=' command then
      if pySplit1 '=' command = "0".data ∨ pySplit1 '=' command = "1".data then
        ⟨{ st with sms_mode := pyIntOf01 (pySplit1 '=' command) }, [], .ret none, input⟩
      else ⟨st, [], .raiseAT "Invalid mode".data, input⟩
    else ⟨st, [], .ret (some ("+CMGF: ".data ++ natToStr st.sms_mode)), input⟩
  | .cCMGS =>
    if st.sms_mode = 1 then
      match read_sms_message input with
      | some (msg, rest) =>
        ⟨{ st with sms_storage := st.sms_storage ++ [⟨"SENT".data, msg⟩] },
         [frame st "> ".data], .ret (some "+CMGS: 1".data), rest⟩
      | none => ⟨st, [frame st "> ".data], .blocked, []⟩
    else ⟨st, [], .raiseAT "PDU mode not supported in this emulator".data, input⟩
  | .cCMGR =>
    ⟨st, [], .ret (some "+CMGR: \"REC UNREAD\",\"1234567890\",,\"21/09/01,12:34:56+00\"\r\nHello, World!".data), input⟩
  | .cCMGL =>
    ⟨st, [], .ret (some "+CMGL: 1,\"REC UNREAD\",\"1234567890\",,\"21/09/01,12:34:56+00\"\r\nHello, World!".data), input⟩
  | .cCMGD => ⟨st, [], .ret none, input⟩
  | .cCUSD => ⟨st, [], .ret (some "+CUSD: 0,\"Your balance is 10.00 USD\",15".data), input⟩
  | .cCGATT =>
    if hasChar '=' command then
      if pySplit1 '=' command = "0".data ∨ pySplit1 '=' command = "1".data then
        ⟨{ st with gprs_attached := pyIntOf01 (pySplit1 '=' command) }, [], .ret none, input⟩
      else ⟨st, [], .raiseAT "Invalid state".data, input⟩
    else ⟨st, [], .ret (some ("+CGATT: ".data ++ natToStr st.gprs_attached)), input⟩
  | .cCIPSTATUS => ⟨st, [], .ret (some ("STATE: ".data ++ st.ip_status)), input⟩
  | .cCIPSTART => ⟨{ st with ip_status := "CONNECTED".data }, [], .ret (some "OK".data), input⟩
  | .cCIPCLOSE => ⟨{ st with ip_status := "IP INITIAL".data }, [], .ret (some "CLOSE OK".data), input⟩
  | .cUnknown => ⟨st, [], .raiseAT "Command not supported".data, input⟩

/-- Observable result of processing: the state afterwards, the list of
serial writes performed, the transport input left unconsumed, and whether
processing is stuck blocking inside body capture. -/
structure Outcome where
  st : EmuState
  out : List Str
  rest : Str
  blocked : Bool
deriving DecidableEq, Repr

/-- `ATEmulator.process_command` (lines 108-126): echo the command when
`echo` is set, dispatch on `base_command`, emit the returned response when
not `None`, emit `OK` unless `quiet`; a raised `ATCommandError e` instead
emits `ERROR: {e}` unconditionally. -/
def process_command (st : EmuState) (command : Str) (input : Str) : Outcome :=
  let echoOut := if st.echo then [frame st command] else []
  let r := runHandler (dispatch (base_command command)) st command input
  match r.res with
  | .ret resp =>
    let respOut := match resp with
      | some b => [frame r.st b]
      | none => []
    let okOut := if r.st.quiet then [] else [frame r.st "OK".data]
    ⟨r.st, echoOut ++ r.mid ++ respOut ++ okOut, r.rest, false⟩
  | .raiseAT msg =>
    ⟨r.st, echoOut ++ r.mid ++ [frame r.st ("ERROR: ".data ++ msg)], r.rest, false⟩
  | .blocked => ⟨r.st, echoOut ++ r.mid, r.rest, true⟩

/-- The per-line loop of `read_loop` (lines 102-104): process each nonempty
split segment, stripped; once a command blocks in body capture, nothing
later runs. -/
def processCmds : EmuState → List Str → Str → Outcome
  | st, [], input => ⟨st, [], input, false⟩
  | st, c :: cs, input =>
    if c = [] then processCmds st cs input
    else
      let o := process_command st (strip c) input
      if o.blocked then ⟨o.st, o.out, o.rest, true⟩
      else
        let o2 := processCmds o.st cs o.rest
        ⟨o2.st, o.out ++ o2.out, o2.rest, o2.blocked⟩

/-- The framing step of `read_loop` (lines 100-105): once the buffer holds a
terminator, strip it, split on `'\r'`, and process every nonempty command. -/
def process_buffer (st : EmuState) (buffer : Str) (input : Str) : Outcome :=
  if hasChar '\r' buffer || hasChar '\n' buffer then
    processCmds st (splitOn '\r' (strip buffer)) input
  else ⟨st, [], input, false⟩

/-- A run that reports an `ATCommandError` with message `msg`: the state is
untouched, the output is the optional echo followed by the single framed
error line, and no transport input is consumed. -/
def errOut (st : EmuState) (command input msg : Str) : Prop :=
  process_command st command input =
    ⟨st, (if st.echo then [frame st command] else []) ++
         [frame st ("ERROR: ".data ++ msg)], input, false⟩

/-- A run that reports some `ATCommandError`, whatever its message. -/
def anyErrOut (st : EmuState) (command input : Str) : Prop :=
  ∃ msg, errOut st command input msg

theorem hasChar_append (sep : Char) (l v : Str) :
    hasChar sep (l ++ v) = (hasChar sep l || hasChar sep v) := by
  simp [hasChar, List.any_append]

theorem hasChar_cons (sep c : Char) (l : Str) :
    hasChar sep (c :: l) = ((c == sep) || hasChar sep l) := by
  simp [hasChar]

theorem pySplitHead_no_sep (sep : Char) (l : Str)
    (h : l.all (fun c => c != sep) = true) : pySplitHead sep l = l := by
  induction l with
  | nil => rfl
  | cons a as ih =>
    simp only [List.all_cons, Bool.and_eq_true] at h
    have ih2 := ih h.2
    simp only [pySplitHead, List.takeWhile_cons, h.1] at ih2 ⊢
    simp [ih2]

theorem pySplitHead_append_stop (sep : Char) (l v : Str)
    (h : l.all (fun c => c != sep) = true) :
    pySplitHead sep (l ++ sep :: v) = l := by
  induction l with
  | nil => simp [pySplitHead, List.takeWhile_cons]
  | cons a as ih =>
    simp only [List.all_cons, Bool.and_eq_true] at h
    simp only [List.cons_append, pySplitHead, List.takeWhile_cons, h.1]
    simpa [pySplitHead] using ih h.2

theorem pyAfter_append (sep : Char) (l v : Str)
    (h : l.all (fun c => c != sep) = true) :
    pyAfter sep (l ++ sep :: v) = v := by
  induction l with
  | nil => simp [pyAfter, List.dropWhile_cons]
  | cons a as ih =>
    simp only [List.all_cons, Bool.and_eq_true] at h
    simp only [List.cons_append, pyAfter, List.dropWhile_cons, h.1]
    simpa [pyAfter] using ih h.2

theorem kAT : "AT".data = ['A', 'T'] := rfl
theorem kATE0 : "ATE0".data = ['A', 'T', 'E', '0'] := rfl
theorem kATE1 : "ATE1".data = ['A', 'T', 'E', '1'] := rfl
theorem kATI : "ATI".data = ['A', 'T', 'I'] := rfl
theorem kGMI : "AT+GMI".data = ['A', 'T', '+', 'G', 'M', 'I'] := rfl
theorem kGMM : "AT+GMM".data = ['A', 'T', '+', 'G', 'M', 'M'] := rfl
theorem kGMR : "AT+GMR".data = ['A', 'T', '+', 'G', 'M', 'R'] := rfl
theorem kCGMI : "AT+CGMI".data = ['A', 'T', '+', 'C', 'G', 'M', 'I'] := rfl
theorem kCGMM : "AT+CGMM".data = ['A', 'T', '+', 'C', 'G', 'M', 'M'] := rfl
theorem kCGMR : "AT+CGMR".data = ['A', 'T', '+', 'C', 'G', 'M', 'R'] := rfl
theorem kCSQ : "AT+CSQ".data = ['A', 'T', '+', 'C', 'S', 'Q'] := rfl
theorem kCREG : "AT+CREG?".data = ['A', 'T', '+', 'C', 'R', 'E', 'G', '?'] := rfl
theorem kCOPS : "AT+COPS?".data = ['A', 'T', '+', 'C', 'O', 'P', 'S', '?'] := rfl
theorem kCMGF : "AT+CMGF".data = ['A', 'T', '+', 'C', 'M', 'G', 'F'] := rfl
theorem kCMGS : "AT+CMGS".data = ['A', 'T', '+', 'C', 'M', 'G', 'S'] := rfl
theorem kCMGR : "AT+CMGR".data = ['A', 'T', '+', 'C', 'M', 'G', 'R'] := rfl
theorem kCMGL : "AT+CMGL".data = ['A', 'T', '+', 'C', 'M', 'G', 'L'] := rfl
theorem kCMGD : "AT+CMGD".data = ['A', 'T', '+', 'C', 'M', 'G', 'D'] := rfl
theorem kCUSD : "AT+CUSD".data = ['A', 'T', '+', 'C', 'U', 'S', 'D'] := rfl
theorem kCGATT : "AT+CGATT".data = ['A', 'T', '+', 'C', 'G', 'A', 'T', 'T'] := rfl
theorem kCIPSTATUS : "AT+CIPSTATUS".data = ['A', 'T', '+', 'C', 'I', 'P', 'S', 'T', 'A', 'T', 'U', 'S'] := rfl
theorem kCIPSTART : "AT+CIPSTART".data = ['A', 'T', '+', 'C', 'I', 'P', 'S', 'T', 'A', 'R', 'T'] := rfl
theorem kCIPCLOSE : "AT+CIPCLOSE".data = ['A', 'T', '+', 'C', 'I', 'P', 'C', 'L', 'O', 'S', 'E'] := rfl

theorem dispatch_unknown_of_third (c : Char) (d : Str)
    (h1 : c ≠ 'E') (h2 : c ≠ 'I') (h3 : c ≠ '+') :
    dispatch ('A' :: 'T' :: c :: d) = Handler.cUnknown := by
  simp only [dispatch, kAT, kATE0, kATE1, kATI, kGMI, kGMM, kGMR, kCGMI, kCGMM,
    kCGMR, kCSQ, kCREG, kCOPS, kCMGF, kCMGS, kCMGR, kCMGL, kCMGD, kCUSD,
    kCGATT, kCIPSTATUS, kCIPSTART, kCIPCLOSE, List.cons.injEq]
  simp [h1, h2, h3]

theorem removeCtrlZ_eq_self (l : Str) (h : hasChar '\x1a' l = false) :
    removeCtrlZ l = l := by
  induction l with
  | nil => rfl
  | cons a as ih =>
    rw [hasChar_cons, Bool.or_eq_false_iff] at h
    simp only [removeCtrlZ, List.filter_cons] at ih ⊢
    have : (a != '\x1a') = true := by
      cases hbe : a == '\x1a' with
      | false => simp [bne, hbe]
      | true => exact absurd hbe (by simp [h.1])
    simp [this, removeCtrlZ] at ih ⊢
    exact ih h.2

theorem readSmsGo_complete (body : Str) :
    ∀ (acc rest : Str), hasChar '\x1a' body = false → hasChar '\x1a' acc = false →
    readSmsGo acc (body ++ '\x1a' :: rest) = some (strip (acc ++ body), rest) := by
  induction body with
  | nil =>
    intro acc rest _ ha
    have hterm : hasChar '\x1a' (acc ++ ['\x1a']) = true := by
      rw [hasChar_append]; simp [hasChar]
    simp only [List.nil_append, readSmsGo, hterm, if_pos]
    rw [removeCtrlZ, List.filter_append, ← removeCtrlZ, removeCtrlZ_eq_self acc ha]
    simp [removeCtrlZ]
  | cons b bs ih =>
    intro acc rest hb ha
    rw [hasChar_cons, Bool.or_eq_false_iff] at hb
    have hstep : hasChar '\x1a' (acc ++ [b]) = false := by
      rw [hasChar_append, ha]
      simp [hasChar, hb.1]
    rw [List.cons_append]
    simp only [readSmsGo, hstep, Bool.false_eq_true, if_false, List.append_eq]
    rw [ih (acc ++ [b]) rest hb.2 hstep, List.append_assoc]
    simp

theorem read_sms_message_complete (body rest : Str)
    (hb : hasChar '\x1a' body = false) :
    read_sms_message (body ++ '\x1a' :: rest) = some (strip body, rest) := by
  rw [read_sms_message, readSmsGo_complete body [] rest hb rfl]
  simp

theorem frame_set_quiet (st : EmuState) (b : Bool) (r : Str) :
    frame { st with quiet := b } r = frame st r := rfl

theorem runHandler_quiet (h : Handler) (st : EmuState) (command input : Str) (b : Bool) :
    runHandler h { st with quiet := b } command input =
      ⟨{ (runHandler h st command input).st with quiet := b },
       (runHandler h st command input).mid,
       (runHandler h st command input).res,
       (runHandler h st command input).rest⟩ := by
  cases h <;> simp only [runHandler, frame_set_quiet] <;>
    first
    | rfl
    | (split_ifs <;> rfl)
    | (split_ifs <;>
        first
        | rfl
        | (cases hr : read_sms_message input <;> simp [hr]))

theorem runHandler_sms_mode (h : Handler) (st : EmuState) (command input : Str) :
    (runHandler h st command input).st.sms_mode = st.sms_mode ∨
    (runHandler h st command input).st.sms_mode = 0 ∨
    (runHandler h st command input).st.sms_mode = 1 := by
  cases h <;> simp only [runHandler] <;> try simp
  case cCMGF =>
    split_ifs with h1 h2
    · simp only [pyIntOf01]
      split_ifs <;> simp
    · simp
    · simp
  case cCMGS =>
    split_ifs with h1
    · cases hr : read_sms_message input with
      | none => simp [hr]
      | some p => cases p with
        | mk m r => simp [hr]
    · simp
  case cCGATT =>
    split_ifs <;> simp

theorem process_command_st (st : EmuState) (command input : Str) :
    (process_command st command input).st =
      (runHandler (dispatch (base_command command)) st command input).st := by
  rw [process_command]
  cases hres : (runHandler (dispatch (base_command command)) st command input).res <;> simp [hres]

/-- C1 counterexample: the framed line `AT+CREG?;+CSQ\r` contains two
sub-commands that are both individually valid, so under the claim the engine
would run `+CREG?` and then `+CSQ`, emitting a `+CSQ:` response. In fact the
whole line is dispatched once, on identifier `AT+CREG?`, and the output is
exactly the echo, the `+CREG` response and `OK` — no `+CSQ:` output at all,
refuting left-to-right execution of sub-commands. -/
theorem semicolon_left_to_right_refuted :
    (process_buffer initState "AT+CREG?;+CSQ\r".data []).out =
      [frame initState "AT+CREG?;+CSQ".data,
       frame initState "+CREG: 0,1".data,
       frame initState "OK".data] ∧
    (process_buffer initState "AT+CREG?;+CSQ\r".data []).out.any
      (containsSub "+CSQ:".data) = false := by decide

/-- C2 counterexample: with `quiet = true`, processing `AT+CMGF=9` still
writes `ERROR: Invalid mode` to the transport — the error result code is not
suppressed by quiet mode, contradicting the claim that no terminal result
code is ever written when quiet is true. -/
theorem quiet_error_still_emitted :
    (process_command { initState with quiet := true } "AT+CMGF=9".data []).out =
      [frame { initState with quiet := true } "AT+CMGF=9".data,
       frame { initState with quiet := true } "ERROR: Invalid mode".data] ∧
    (process_command { initState with quiet := true } "AT+CMGF=9".data []).out.any
      (containsSub "ERROR".data) = true := by decide

/-- C3 counterexample: `ATS0=0` is a set of a valid register index 0 to a
valid value 0, which the claim says succeeds; the code instead dispatches it
to `handle_unknown` and replies `ERROR: Command not supported`, leaving the
state unchanged. -/
theorem sregister_set_fails :
    process_command initState "ATS0=0".data [] =
      ⟨initState, [frame initState "ATS0=0".data,
                   frame initState "ERROR: Command not supported".data], [], false⟩ := by decide

/-- C4: evaluation of the code at the claim's failing input. `AT+CMGF=1`
succeeds and sets `sms_mode = 1`, but the subsequent read `AT+CMGF?` is
dispatched to `handle_unknown` (the registry has no `AT+CMGF?` key, and the
dispatcher re-appends `?` to the identifier) and replies
`ERROR: Command not supported` instead of `+CMGF: 1`; the same happens for
`AT+CGATT=1` followed by `AT+CGATT?`. -/
theorem cmgf_cgatt_query_errors :
    ((process_command initState "AT+CMGF=1".data []).st.sms_mode = 1 ∧
     (process_command initState "AT+CMGF=1".data []).out =
       [frame initState "AT+CMGF=1".data, frame initState "OK".data]) ∧
    (process_command (process_command initState "AT+CMGF=1".data []).st "AT+CMGF?".data []).out =
      [frame initState "AT+CMGF?".data,
       frame initState "ERROR: Command not supported".data] ∧
    ((process_command initState "AT+CGATT=1".data []).st.gprs_attached = 1 ∧
     (process_command (process_command initState "AT+CGATT=1".data []).st "AT+CGATT?".data []).out =
       [frame initState "AT+CGATT?".data,
        frame initState "ERROR: Command not supported".data]) := by decide

/-- C5 counterexample: two successive successful text-mode submissions
both emit the reference line `+CMGS: 1`; the second does not emit
`+CMGS: 2`. The reference sequence is constant 1, not strictly increasing
modulo 256. -/
theorem cmgs_reference_not_increasing :
    (process_command initState "AT+CMGS=5".data ("Hi".data ++ ['\x1a'])).out.any
        (containsSub "+CMGS: 1".data) = true ∧
    (process_command (process_command initState "AT+CMGS=5".data ("Hi".data ++ ['\x1a'])).st
        "AT+CMGS=7".data ("Again".data ++ ['\x1a'])).out.any
        (containsSub "+CMGS: 1".data) = true ∧
    (process_command (process_command initState "AT+CMGS=5".data ("Hi".data ++ ['\x1a'])).st
        "AT+CMGS=7".data ("Again".data ++ ['\x1a'])).out.any
        (containsSub "+CMGS: 2".data) = false := by decide

/-- C6 counterexample: in PDU mode, `AT+CMGS=10` has a payload length
inside the claimed valid range `[7,160]`, yet the code fails with
`ERROR: PDU mode not supported in this emulator` (an `ATCommandError`, not a
CMS error) without entering body capture; and in TEXT mode `AT+CMGS=0`,
which the claim says must be rejected, enters body capture and completes
with `+CMGS: 1`. -/
theorem cmgs_validation_refuted :
    process_command { initState with sms_mode := 0 } "AT+CMGS=10".data [] =
      ⟨{ initState with sms_mode := 0 },
       [frame { initState with sms_mode := 0 } "AT+CMGS=10".data,
        frame { initState with sms_mode := 0 } "ERROR: PDU mode not supported in this emulator".data],
       [], false⟩ ∧
    (process_command initState "AT+CMGS=0".data ("A".data ++ ['\x1a'])).out.any
      (containsSub "+CMGS: 1".data) = true := by decide

/-- C8 counterexample: `AT*200#`, which the claim says returns the canned
balance string and `OK`, is dispatched to `handle_unknown` and replies
`ERROR: Command not supported`; no output mentions the balance. -/
theorem ussd_balance_refuted :
    process_command initState "AT*200#".data [] =
      ⟨initState, [frame initState "AT*200#".data,
                   frame initState "ERROR: Command not supported".data], [], false⟩ ∧
    (process_command initState "AT*200#".data []).out.any
      (containsSub "balance".data) = false := by decide

/-- C9 counterexample: the SET command `AT+CGATT=1=9` carries the payload
`1=9`, which is outside `{0,1}`, yet the command succeeds: the handler reads
only the text between the first and second `=`, sets `gprs_attached := 1`
(changing Device State) and replies `OK` with no error. -/
theorem cgatt_payload_with_equals_accepted :
    (process_command initState "AT+CGATT=1=9".data []).st.gprs_attached = 1 ∧
    (process_command initState "AT+CGATT=1=9".data []).st ≠ initState ∧
    (process_command initState "AT+CGATT=1=9".data []).out =
      [frame initState "AT+CGATT=1=9".data, frame initState "OK".data] := by decide

theorem all_bne_eq (sep : Char) (l : Str) :
    l.all (fun c => c != sep) = !(hasChar sep l) := by
  induction l with
  | nil => rfl
  | cons a as ih =>
    rw [List.all_cons, ih, hasChar_cons, Bool.not_or]
    rfl

theorem digits_no_char (d : Str) (c : Char) (hd : d.all Char.isDigit = true)
    (hc : c.isDigit = false) : hasChar c d = false := by
  induction d with
  | nil => rfl
  | cons a as ih =>
    simp only [List.all_cons, Bool.and_eq_true] at hd
    rw [hasChar_cons, ih hd.2, Bool.or_false]
    cases he : a == c with
    | false => rfl
    | true =>
      rw [eq_of_beq he] at hd
      rw [hd.1] at hc
      cases hc

theorem base_command_set_form (l v : Str)
    (hl_eq : hasChar '=' l = false) (hl_q : hasChar '?' l = false) :
    base_command (l ++ '=' :: v) = l ++ (if hasChar '?' v then ['?'] else []) := by
  have hall_eq : l.all (fun c => c != '=') = true := by rw [all_bne_eq, hl_eq]; rfl
  have hall_q : l.all (fun c => c != '?') = true := by rw [all_bne_eq, hl_q]; rfl
  rw [base_command, pySplitHead_append_stop '=' l v hall_eq,
      pySplitHead_no_sep '?' l hall_q, hasChar_append, hasChar_cons, hl_q]
  simp

theorem base_command_id (s : Str)
    (h_eq : hasChar '=' s = false) (h_q : hasChar '?' s = false) :
    base_command s = s := by
  have hall_eq : s.all (fun c => c != '=') = true := by rw [all_bne_eq, h_eq]; rfl
  have hall_q : s.all (fun c => c != '?') = true := by rw [all_bne_eq, h_q]; rfl
  rw [base_command, pySplitHead_no_sep '=' s hall_eq,
      pySplitHead_no_sep '?' s hall_q, h_q]
  simp

theorem pySplit1_set_form (l v : Str) (hl : hasChar '=' l = false) :
    pySplit1 '=' (l ++ '=' :: v) = pySplitHead '=' v := by
  have hall : l.all (fun c => c != '=') = true := by rw [all_bne_eq, hl]; rfl
  rw [pySplit1, pyAfter_append '=' l v hall]

theorem hasChar_set_form (l v : Str) : hasChar '=' (l ++ '=' :: v) = true := by
  rw [hasChar_append, hasChar_cons]
  simp

theorem frame_set_storage (st : EmuState) (x : List SmsRecord) (r : Str) :
    frame { st with sms_storage := x } r = frame st r := rfl

theorem cmgs_run (st : EmuState) (v body rest : Str)
    (hm : st.sms_mode = 1) (hq : hasChar '?' v = false)
    (hb : hasChar '\x1a' body = false) :
    process_command st ("AT+CMGS=".data ++ v) (body ++ '\x1a' :: rest) =
      ⟨{ st with sms_storage := st.sms_storage ++ [⟨"SENT".data, strip body⟩] },
       (if st.echo then [frame st ("AT+CMGS=".data ++ v)] else []) ++
         [frame st "> ".data, frame st "+CMGS: 1".data] ++
         (if st.quiet then [] else [frame st "OK".data]),
       rest, false⟩ := by
  have hsplit : ("AT+CMGS=".data : Str) ++ v = "AT+CMGS".data ++ '=' :: v := rfl
  have hbc : base_command ("AT+CMGS=".data ++ v) = "AT+CMGS".data := by
    rw [hsplit, base_command_set_form "AT+CMGS".data v (by decide) (by decide), hq]
    simp
  have hdis : dispatch (base_command ("AT+CMGS=".data ++ v)) = Handler.cCMGS := by
    rw [hbc]; decide
  rw [process_command, hdis, runHandler]
  rw [if_pos hm, read_sms_message_complete body rest hb]
  simp only [frame_set_storage]
  simp [List.append_assoc]

/-- C7: the text-mode two-phase submission protocol. From any state with
`sms_mode = 1`, processing `AT+CMGS=<v>` with transport input
`<body>0x1A<rest>` (body free of the terminator) emits, in order: the
optional echo, the framed prompt `"> "` with no result code before it, then
— only after the terminator is consumed — the deferred `+CMGS: 1` response
followed by the terminal `OK` (suppressed when quiet). The record
`{status := SENT, message := strip body}` is appended to the outbound
store, exactly the captured bytes with the terminator stripped and
trimmed, and exactly the bytes up to the terminator are consumed. -/
theorem cmgs_text_mode_two_phase (st : EmuState) (v body rest : Str)
    (hm : st.sms_mode = 1) (hq : hasChar '?' v = false)
    (hb : hasChar '\x1a' body = false) :
    process_command st ("AT+CMGS=".data ++ v) (body ++ '\x1a' :: rest) =
      ⟨{ st with sms_storage := st.sms_storage ++ [⟨"SENT".data, strip body⟩] },
       (if st.echo then [frame st ("AT+CMGS=".data ++ v)] else []) ++
         [frame st "> ".data, frame st "+CMGS: 1".data] ++
         (if st.quiet then [] else [frame st "OK".data]),
       rest, false⟩ :=
  cmgs_run st v body rest hm hq hb

/-- C7 witness: the spec scenario `AT+CMGS=5` with body `Hello` and
terminator `0x1A` from the initial (verbose, non-quiet, text-mode)
state. -/
theorem cmgs_text_mode_two_phase_witness :
    initState.sms_mode = 1 ∧ hasChar '?' "5".data = false ∧
    hasChar '\x1a' "Hello".data = false ∧
    process_command initState ("AT+CMGS=".data ++ "5".data) ("Hello".data ++ '\x1a' :: []) =
      ⟨{ initState with
          sms_storage := initState.sms_storage ++ [⟨"SENT".data, strip "Hello".data⟩] },
       (if initState.echo then [frame initState ("AT+CMGS=".data ++ "5".data)] else []) ++
         [frame initState "> ".data, frame initState "+CMGS: 1".data] ++
         (if initState.quiet then [] else [frame initState "OK".data]),
       [], false⟩ :=
  ⟨rfl, rfl, rfl,
   cmgs_text_mode_two_phase initState "5".data "Hello".data [] rfl rfl rfl⟩

/-- C5 (amended): there is no message-reference counter; every successful
submission returns the constant reference 1. From any text-mode state, two
consecutive completed submissions each emit the framed response
`+CMGS: 1`. -/
theorem cmgs_reference_constant_one (st : EmuState) (b1 b2 : Str)
    (hm : st.sms_mode = 1) (h1 : hasChar '\x1a' b1 = false)
    (h2 : hasChar '\x1a' b2 = false) :
    frame st "+CMGS: 1".data ∈
      (process_command st "AT+CMGS=5".data (b1 ++ '\x1a' :: [])).out ∧
    frame st "+CMGS: 1".data ∈
      (process_command (process_command st "AT+CMGS=5".data (b1 ++ '\x1a' :: [])).st
        "AT+CMGS=7".data (b2 ++ '\x1a' :: [])).out := by
  have e5 : ("AT+CMGS=5".data : Str) = "AT+CMGS=".data ++ "5".data := rfl
  have e7 : ("AT+CMGS=7".data : Str) = "AT+CMGS=".data ++ "7".data := rfl
  have r1 := cmgs_run st "5".data b1 [] hm (by decide) h1
  have hm1 : ({ st with sms_storage := st.sms_storage ++ [⟨"SENT".data, strip b1⟩] } : EmuState).sms_mode = 1 := hm
  have r2 := cmgs_run { st with sms_storage := st.sms_storage ++ [⟨"SENT".data, strip b1⟩] }
      "7".data b2 [] hm1 (by decide) h2
  have hst1 : (process_command st ("AT+CMGS=".data ++ "5".data) (b1 ++ '\x1a' :: [])).st =
      { st with sms_storage := st.sms_storage ++ [⟨"SENT".data, strip b1⟩] } := by rw [r1]
  constructor
  · rw [e5, r1]
    simp
  · rw [e5, hst1, e7, r2]
    simp [frame_set_storage]

/-- C5 witness: instance of `cmgs_reference_constant_one` at the initial
state with bodies `Hi` and `Yo`. -/
theorem cmgs_reference_constant_one_witness :
    initState.sms_mode = 1 ∧ hasChar '\x1a' "Hi".data = false ∧
    hasChar '\x1a' "Yo".data = false ∧
    (frame initState "+CMGS: 1".data ∈
       (process_command initState "AT+CMGS=5".data ("Hi".data ++ '\x1a' :: [])).out ∧
     frame initState "+CMGS: 1".data ∈
       (process_command (process_command initState "AT+CMGS=5".data ("Hi".data ++ '\x1a' :: [])).st
         "AT+CMGS=7".data ("Yo".data ++ '\x1a' :: [])).out) :=
  ⟨rfl, rfl, rfl,
   cmgs_reference_constant_one initState "Hi".data "Yo".data rfl rfl rfl⟩

/-- C6 (amended): `handle_cmgs` performs no length validation of the
payload. For every state and every `?`-free payload `v`: in PDU mode
(`sms_mode = 0`) the command always fails with the `ATCommandError`
`PDU mode not supported in this emulator`, leaving the state unchanged; in
TEXT mode (`sms_mode = 1`) it always enters body capture, emitting the
framed `"> "` prompt right after the optional echo, regardless of `v`. -/
theorem cmgs_no_length_validation (st : EmuState) (v input : Str)
    (hq : hasChar '?' v = false) :
    (st.sms_mode = 0 →
      errOut st ("AT+CMGS=".data ++ v) input
        "PDU mode not supported in this emulator".data) ∧
    (st.sms_mode = 1 →
      ∃ t, (process_command st ("AT+CMGS=".data ++ v) input).out =
        (if st.echo then [frame st ("AT+CMGS=".data ++ v)] else []) ++
          frame st "> ".data :: t) := by
  have hsplit : ("AT+CMGS=".data : Str) ++ v = "AT+CMGS".data ++ '=' :: v := rfl
  have hdis : dispatch (base_command ("AT+CMGS=".data ++ v)) = Handler.cCMGS := by
    rw [hsplit, base_command_set_form "AT+CMGS".data v (by decide) (by decide), hq]
    decide
  constructor
  · intro h0
    rw [errOut, process_command, hdis, runHandler]
    rw [if_neg (by rw [h0]; decide)]
    simp
  · intro h1
    rw [process_command, hdis, runHandler, if_pos h1]
    cases hr : read_sms_message input with
    | none =>
      refine ⟨[], ?_⟩
      simp
    | some p =>
      cases p with
      | mk m r =>
        refine ⟨frame st "+CMGS: 1".data ::
          (if st.quiet then [] else [frame st "OK".data]), ?_⟩
        simp [frame_set_storage]

/-- C6 witness: instance of `cmgs_no_length_validation` at the PDU-mode
initial state with payload `10`. -/
theorem cmgs_no_length_validation_witness :
    hasChar '?' "10".data = false ∧
    ({ initState with sms_mode := 0 }.sms_mode = 0 →
      errOut { initState with sms_mode := 0 } ("AT+CMGS=".data ++ "10".data) []
        "PDU mode not supported in this emulator".data) ∧
    ({ initState with sms_mode := 0 }.sms_mode = 1 →
      ∃ t, (process_command { initState with sms_mode := 0 } ("AT+CMGS=".data ++ "10".data) []).out =
        (if ({ initState with sms_mode := 0 } : EmuState).echo then
          [frame { initState with sms_mode := 0 } ("AT+CMGS=".data ++ "10".data)] else []) ++
          frame { initState with sms_mode := 0 } "> ".data :: t) :=
  ⟨rfl, (cmgs_no_length_validation { initState with sms_mode := 0 } "10".data [] rfl).1,
        (cmgs_no_length_validation { initState with sms_mode := 0 } "10".data [] rfl).2⟩

/-- C3 (amended): S-registers are not implemented at all. For every state,
every digit-string index `n` and digit-string value `v`, both the set
command `ATSn=v` and the read command `ATSn?` fall through the handler
table to `handle_unknown` and fail with `ERROR: Command not supported`,
leaving Device State unchanged and consuming no transport input. -/
theorem sregister_commands_unsupported (st : EmuState) (n v input : Str)
    (hn : n.all Char.isDigit = true) (hv : v.all Char.isDigit = true) :
    errOut st ("ATS".data ++ n ++ "=".data ++ v) input "Command not supported".data ∧
    errOut st ("ATS".data ++ n ++ "?".data) input "Command not supported".data := by
  have hn_eq : hasChar '=' n = false := digits_no_char n '=' hn (by decide)
  have hn_q : hasChar '?' n = false := digits_no_char n '?' hn (by decide)
  have hv_q : hasChar '?' v = false := digits_no_char v '?' hv (by decide)
  have hl_eq : hasChar '=' ("ATS".data ++ n) = false := by
    rw [hasChar_append, hn_eq]
    decide
  have hl_q : hasChar '?' ("ATS".data ++ n) = false := by
    rw [hasChar_append, hn_q]
    decide
  constructor
  · have hshape : ("ATS".data ++ n ++ "=".data ++ v : Str) =
        ("ATS".data ++ n) ++ '=' :: v := by
      rw [List.append_assoc ("ATS".data ++ n) "=".data v]
      rfl
    have hbc : base_command ("ATS".data ++ n ++ "=".data ++ v) = "ATS".data ++ n := by
      rw [hshape, base_command_set_form ("ATS".data ++ n) v hl_eq hl_q, hv_q]
      simp
    have hdis : dispatch (base_command ("ATS".data ++ n ++ "=".data ++ v)) = Handler.cUnknown := by
      rw [hbc, show ("ATS".data ++ n : Str) = 'A' :: 'T' :: 'S' :: n from rfl]
      exact dispatch_unknown_of_third 'S' n (by decide) (by decide) (by decide)
    rw [errOut, process_command, hdis, runHandler]
    simp
  · have h2_eq : hasChar '=' ("ATS".data ++ n ++ "?".data) = false := by
      rw [hasChar_append, hl_eq]
      decide
    have h2_q : hasChar '?' ("ATS".data ++ n ++ "?".data) = true := by
      rw [hasChar_append]
      simp [hasChar]
    have hall_eq : ("ATS".data ++ n ++ "?".data : Str).all (fun c => c != '=') = true := by
      rw [all_bne_eq, h2_eq]
      rfl
    have hall_q : ("ATS".data ++ n : Str).all (fun c => c != '?') = true := by
      rw [all_bne_eq, hl_q]
      rfl
    have hbc : base_command ("ATS".data ++ n ++ "?".data) = ("ATS".data ++ n) ++ ['?'] := by
      rw [base_command, pySplitHead_no_sep '=' _ hall_eq]
      rw [show ("ATS".data ++ n ++ "?".data : Str) = ("ATS".data ++ n) ++ '?' :: [] from rfl]
      rw [pySplitHead_append_stop '?' _ _ hall_q]
      rw [show (("ATS".data ++ n) ++ '?' :: [] : Str) = "ATS".data ++ n ++ "?".data from rfl, h2_q]
      simp
    have hdis : dispatch (base_command ("ATS".data ++ n ++ "?".data)) = Handler.cUnknown := by
      rw [hbc, show (("ATS".data ++ n) ++ ['?'] : Str) = 'A' :: 'T' :: 'S' :: (n ++ ['?']) from by
        rw [List.append_assoc]
        rfl]
      exact dispatch_unknown_of_third 'S' (n ++ ['?']) (by decide) (by decide) (by decide)
    rw [errOut, process_command, hdis, runHandler]
    simp

/-- C3 witness: instance of `sregister_commands_unsupported` at
`ATS0=7` / `ATS0?` from the initial state. -/
theorem sregister_commands_unsupported_witness :
    ("0".data : Str).all Char.isDigit = true ∧ ("7".data : Str).all Char.isDigit = true ∧
    (errOut initState ("ATS".data ++ "0".data ++ "=".data ++ "7".data) []
       "Command not supported".data ∧
     errOut initState ("ATS".data ++ "0".data ++ "?".data) []
       "Command not supported".data) :=
  ⟨rfl, rfl, sregister_commands_unsupported initState "0".data "7".data [] rfl rfl⟩

/-- C8 (amended): USSD dial strings are not recognized at all. For every
state and every digit string `d`, the command `AT*<d>#` is dispatched to
`handle_unknown` and fails with `ERROR: Command not supported`, leaving the
state unchanged; the canned balance response exists only behind the
`AT+CUSD` identifier. -/
theorem ussd_dial_strings_rejected (st : EmuState) (d input : Str)
    (hd : d.all Char.isDigit = true) :
    errOut st ("AT*".data ++ d ++ "#".data) input "Command not supported".data := by
  have hd_eq : hasChar '=' d = false := digits_no_char d '=' hd (by decide)
  have hd_q : hasChar '?' d = false := digits_no_char d '?' hd (by decide)
  have h_eq : hasChar '=' ("AT*".data ++ d ++ "#".data) = false := by
    rw [hasChar_append, hasChar_append, hd_eq]
    decide
  have h_q : hasChar '?' ("AT*".data ++ d ++ "#".data) = false := by
    rw [hasChar_append, hasChar_append, hd_q]
    decide
  have hbc : base_command ("AT*".data ++ d ++ "#".data) = "AT*".data ++ d ++ "#".data :=
    base_command_id _ h_eq h_q
  have hdis : dispatch (base_command ("AT*".data ++ d ++ "#".data)) = Handler.cUnknown := by
    rw [hbc, show ("AT*".data ++ d ++ "#".data : Str) = 'A' :: 'T' :: '*' :: (d ++ "#".data) from by
      rw [List.append_assoc]
      rfl]
    exact dispatch_unknown_of_third '*' (d ++ "#".data) (by decide) (by decide) (by decide)
  rw [errOut, process_command, hdis, runHandler]
  simp

/-- C8 witness: instance of `ussd_dial_strings_rejected` at `AT*200#`
from the initial state. -/
theorem ussd_dial_strings_rejected_witness :
    ("200".data : Str).all Char.isDigit = true ∧
    errOut initState ("AT*".data ++ "200".data ++ "#".data) [] "Command not supported".data :=
  ⟨rfl, ussd_dial_strings_rejected initState "200".data [] rfl⟩

/-- C9 (amended): for every state and every payload `v` whose first
`=`-separated segment is outside `{0,1}`, both `AT+CGATT=<v>` and
`AT+CMGF=<v>` fail with an `ATCommandError` (reported as `ERROR: ...`) and
leave Device State entirely unchanged, consuming no transport input; no
mutation is half-applied before the failure. Payloads whose first segment
is `0` or `1` are accepted with that value even if further `=`-separated
text follows. -/
theorem invalid_set_reports_error_state_unchanged (st : EmuState) (v input : Str)
    (h0 : pySplitHead '=' v ≠ "0".data) (h1 : pySplitHead '=' v ≠ "1".data) :
    anyErrOut st ("AT+CGATT=".data ++ v) input ∧
    anyErrOut st ("AT+CMGF=".data ++ v) input := by
  have hshape1 : ("AT+CGATT=".data : Str) ++ v = "AT+CGATT".data ++ '=' :: v := rfl
  have hshape2 : ("AT+CMGF=".data : Str) ++ v = "AT+CMGF".data ++ '=' :: v := rfl
  have hmode : ¬(pySplitHead '=' v = "0".data ∨ pySplitHead '=' v = "1".data) := by
    rintro (h | h)
    · exact h0 h
    · exact h1 h
  cases hq : hasChar '?' v with
  | true =>
    constructor
    · refine ⟨"Command not supported".data, ?_⟩
      have hdis : dispatch (base_command ("AT+CGATT=".data ++ v)) = Handler.cUnknown := by
        rw [hshape1, base_command_set_form "AT+CGATT".data v (by decide) (by decide), hq]
        decide
      rw [errOut, process_command, hdis, runHandler]
      simp
    · refine ⟨"Command not supported".data, ?_⟩
      have hdis : dispatch (base_command ("AT+CMGF=".data ++ v)) = Handler.cUnknown := by
        rw [hshape2, base_command_set_form "AT+CMGF".data v (by decide) (by decide), hq]
        decide
      rw [errOut, process_command, hdis, runHandler]
      simp
  | false =>
    constructor
    · refine ⟨"Invalid state".data, ?_⟩
      have hdis : dispatch (base_command ("AT+CGATT=".data ++ v)) = Handler.cCGATT := by
        rw [hshape1, base_command_set_form "AT+CGATT".data v (by decide) (by decide), hq]
        decide
      have hce : hasChar '=' ("AT+CGATT=".data ++ v) = true := by
        rw [hshape1]
        exact hasChar_set_form _ _
      have hps : pySplit1 '=' ("AT+CGATT=".data ++ v) = pySplitHead '=' v := by
        rw [hshape1]
        exact pySplit1_set_form _ _ (by decide)
      rw [errOut, process_command, hdis, runHandler, if_pos hce, hps, if_neg hmode]
      simp
    · refine ⟨"Invalid mode".data, ?_⟩
      have hdis : dispatch (base_command ("AT+CMGF=".data ++ v)) = Handler.cCMGF := by
        rw [hshape2, base_command_set_form "AT+CMGF".data v (by decide) (by decide), hq]
        decide
      have hce : hasChar '=' ("AT+CMGF=".data ++ v) = true := by
        rw [hshape2]
        exact hasChar_set_form _ _
      have hps : pySplit1 '=' ("AT+CMGF=".data ++ v) = pySplitHead '=' v := by
        rw [hshape2]
        exact pySplit1_set_form _ _ (by decide)
      rw [errOut, process_command, hdis, runHandler, if_pos hce, hps, if_neg hmode]
      simp

/-- C9 witness: instance of `invalid_set_reports_error_state_unchanged`
at payload `9` from the initial state. -/
theorem invalid_set_reports_error_state_unchanged_witness :
    pySplitHead '=' "9".data ≠ "0".data ∧ pySplitHead '=' "9".data ≠ "1".data ∧
    (anyErrOut initState ("AT+CGATT=".data ++ "9".data) [] ∧
     anyErrOut initState ("AT+CMGF=".data ++ "9".data) []) :=
  ⟨by decide, by decide,
   invalid_set_reports_error_state_unchanged initState "9".data [] (by decide) (by decide)⟩

/-- C1 (amended): the engine performs no `;` splitting; a framed line is
dispatched as a single command whose identifier is computed from the whole
line. In particular, for every state and transport input, the framed line
`AT+CMGF=9;+CSQ\r` reaches the `+CMGF` handler with payload `9;+CSQ`, which
is rejected as an invalid mode: the output is only the optional echo plus
`ERROR: Invalid mode`, no `+CSQ:` output is produced, the state is
unchanged, and no transport input is consumed. -/
theorem semicolon_line_single_dispatch (st : EmuState) (input : Str) :
    (process_buffer st "AT+CMGF=9;+CSQ\r".data input).st = st ∧
    (process_buffer st "AT+CMGF=9;+CSQ\r".data input).out =
      (if st.echo then [frame st "AT+CMGF=9;+CSQ".data] else []) ++
        [frame st "ERROR: Invalid mode".data] ∧
    (process_buffer st "AT+CMGF=9;+CSQ\r".data input).out.any
      (containsSub "+CSQ:".data) = false ∧
    (process_buffer st "AT+CMGF=9;+CSQ\r".data input).rest = input ∧
    (process_buffer st "AT+CMGF=9;+CSQ\r".data input).blocked = false := by
  have hterm : (hasChar '\r' "AT+CMGF=9;+CSQ\r".data ||
      hasChar '\n' "AT+CMGF=9;+CSQ\r".data) = true := by decide
  have hsplit : splitOn '\r' (strip "AT+CMGF=9;+CSQ\r".data) =
      ["AT+CMGF=9;+CSQ".data] := by decide
  have hne : ("AT+CMGF=9;+CSQ".data : Str) ≠ [] := by decide
  have hstrip : strip "AT+CMGF=9;+CSQ".data = "AT+CMGF=9;+CSQ".data := by decide
  have hdis : dispatch (base_command "AT+CMGF=9;+CSQ".data) = Handler.cCMGF := by decide
  have hce : hasChar '=' "AT+CMGF=9;+CSQ".data = true := by decide
  have hmode : ¬(pySplit1 '=' "AT+CMGF=9;+CSQ".data = "0".data ∨
      pySplit1 '=' "AT+CMGF=9;+CSQ".data = "1".data) := by decide
  have hpc : process_command st "AT+CMGF=9;+CSQ".data input =
      ⟨st, (if st.echo then [frame st "AT+CMGF=9;+CSQ".data] else []) ++
           [frame st "ERROR: Invalid mode".data], input, false⟩ := by
    rw [process_command, hdis, runHandler, if_pos hce, if_neg hmode]
    simp
  have hpb : process_buffer st "AT+CMGF=9;+CSQ\r".data input =
      ⟨st, (if st.echo then [frame st "AT+CMGF=9;+CSQ".data] else []) ++
           [frame st "ERROR: Invalid mode".data], input, false⟩ := by
    rw [process_buffer, if_pos hterm, hsplit, processCmds, if_neg hne, hstrip, hpc]
    simp [processCmds]
  refine ⟨by rw [hpb], by rw [hpb], ?_, by rw [hpb], by rw [hpb]⟩
  rw [hpb]
  cases he : st.echo <;> cases hv : st.verbose <;>
    simp only [he, hv, frame, if_true, if_false] <;> decide

/-- C2 (amended): for every state, command and transport input, running
with `quiet = true` differs from running with `quiet = false` only in that
the non-quiet run may append the single trailing framed `OK` result line;
the resulting states agree up to the quiet flag, the consumed input and
blocking behaviour agree, and all other output — echo, prompts, handler
response bodies, and `ERROR` lines — is emitted identically. Quiet mode
therefore suppresses only the success result code `OK`, never a handler
body and never an error result. -/
theorem quiet_suppresses_only_trailing_ok (st : EmuState) (command input : Str) :
    (process_command { st with quiet := false } command input).st =
      { (process_command { st with quiet := true } command input).st with quiet := false } ∧
    (process_command { st with quiet := false } command input).rest =
      (process_command { st with quiet := true } command input).rest ∧
    (process_command { st with quiet := false } command input).blocked =
      (process_command { st with quiet := true } command input).blocked ∧
    ((process_command { st with quiet := false } command input).out =
       (process_command { st with quiet := true } command input).out ∨
     (process_command { st with quiet := false } command input).out =
       (process_command { st with quiet := true } command input).out ++
         [frame (process_command { st with quiet := true } command input).st "OK".data]) := by
  rw [process_command, process_command]
  rw [runHandler_quiet _ st command input true, runHandler_quiet _ st command input false]
  cases hres : (runHandler (dispatch (base_command command)) st command input).res with
  | ret resp =>
    cases resp with
    | none =>
      refine ⟨by simp [hres], by simp [hres], by simp [hres],
        Or.inr ?_⟩
      simp [hres, frame_set_quiet, List.append_assoc]
    | some b =>
      refine ⟨by simp [hres], by simp [hres], by simp [hres],
        Or.inr ?_⟩
      simp [hres, frame_set_quiet, List.append_assoc]
  | raiseAT msg =>
    exact ⟨by simp [hres], by simp [hres], by simp [hres],
      Or.inl (by simp [hres, frame_set_quiet])⟩
  | blocked =>
    exact ⟨by simp [hres], by simp [hres], by simp [hres],
      Or.inl (by simp [hres, frame_set_quiet])⟩

/-- C10: the invariant `sms_mode ∈ {0, 1}` holds initially (`sms_mode`
starts at 1) and is preserved by processing any command from any state
satisfying it: the only handler that writes `sms_mode` assigns it only
after checking the payload segment is `0` or `1`. -/
theorem sms_mode_invariant :
    initState.sms_mode = 1 ∧
    ∀ (st : EmuState) (command input : Str),
      (st.sms_mode = 0 ∨ st.sms_mode = 1) →
      ((process_command st command input).st.sms_mode = 0 ∨
       (process_command st command input).st.sms_mode = 1) := by
  refine ⟨rfl, ?_⟩
  intro st command input hst
  rw [process_command_st]
  rcases runHandler_sms_mode (dispatch (base_command command)) st command input with h | h | h
  · rw [h]
    exact hst
  · exact Or.inl h
  · exact Or.inr h

/-- C10 witness: instance of the preservation part of `sms_mode_invariant`
at the initial state processing `AT+CMGF=0`. -/
theorem sms_mode_invariant_witness :
    (initState.sms_mode = 0 ∨ initState.sms_mode = 1) ∧
    ((process_command initState "AT+CMGF=0".data []).st.sms_mode = 0 ∨
     (process_command initState "AT+CMGF=0".data []).st.sms_mode = 1) :=
  ⟨Or.inr rfl, sms_mode_invariant.2 initState "AT+CMGF=0".data [] (Or.inr rfl)⟩
